import Mathlib

/-!
Shallow embedding of the appointment scheduling core of the ehass backend
(internal/model/appointment model, internal/repository/appointment_repository.go,
internal/service/appointment_service.go — the variant wired to the handler and
to the AppointmentService interface).

Time is modelled as an integer timestamp (seconds); the Go methods Before,
After, Equal on time.Time become <, >, = on Int, and time.Hour becomes the
constant hourDur.  The database is a list of appointment rows plus the sets of
existing doctor and patient ids; the GORM calls Create, Save, First, and the
filtered query of FindByDateRange become the corresponding list operations.
Each service method takes the current time (time.Now) as an explicit argument
where the Go code reads the clock; a method that returns early with an error
never calls the repository writers, which the embedding renders by returning
an error without a new database state.
-/

namespace Ehass

/-- Appointment status enumeration from internal/model (pending, confirmed,
cancelled, completed, no_show). -/
inductive AppointmentStatus where
  | pending
  | confirmed
  | cancelled
  | completed
  | noShow
  deriving DecidableEq, Repr

/-- The fields of model.Appointment that the scheduling logic reads or writes. -/
structure Appointment where
  id : Nat
  patientID : Nat
  doctorID : Nat
  scheduledStart : Int
  scheduledEnd : Int
  status : AppointmentStatus
  notes : String
  reason : String
  deriving DecidableEq, Repr

/-- The persistent state the appointment service sees: the appointments table
and the ids of existing doctors and patients (doctorRepo.FindByID and
patientRepo.FindByID succeed exactly on these ids). -/
structure DB where
  doctors : List Nat
  patients : List Nat
  appointments : List Appointment
  deriving DecidableEq, Repr

/-- The distinct error returns of the appointment service methods. -/
inductive SvcError where
  | doctorNotFound
  | patientNotFound
  | pastStart
  | endBeforeStart
  | conflict
  | apptNotFound
  | terminalUpdate
  | alreadyFinished
  | tooLateToCancel
  | notConfirmed
  deriving DecidableEq, Repr

/-- time.Hour, in the time unit of the embedding (seconds). -/
def hourDur : Int := 3600

/-- The row filter of appointmentRepository.FindByDateRange: doctor_id = ?,
scheduled_start >= start, scheduled_start <= end.  Note it constrains only
scheduled_start, not scheduled_end. -/
def inDateRange (docID : Nat) (startT endT : Int) (a : Appointment) : Bool :=
  a.doctorID == docID && decide (startT ≤ a.scheduledStart) && decide (a.scheduledStart ≤ endT)

/-- appointmentRepository.FindByDateRange: filter by doctor and by
scheduled_start within [start, end], order by scheduled_start ASC, then
apply OFFSET and LIMIT. -/
def FindByDateRange (appts : List Appointment) (docID : Nat) (startT endT : Int)
    (limit offset : Nat) : List Appointment :=
  (((appts.filter (inDateRange docID startT endT)).insertionSort
      (fun a b => a.scheduledStart ≤ b.scheduledStart)).drop offset).take limit

/-- appointmentRepository.FindByID: first row whose id matches. -/
def FindByID (appts : List Appointment) (id : Nat) : Option Appointment :=
  appts.find? (fun a => a.id == id)

/-- appointmentRepository.Create: INSERT of a new row. -/
def repoCreate (db : DB) (a : Appointment) : DB :=
  { db with appointments := db.appointments ++ [a] }

/-- appointmentRepository.Update (GORM Save on an existing primary key):
replace the row with the same id. -/
def repoUpdate (db : DB) (a : Appointment) : DB :=
  { db with appointments := db.appointments.map (fun b => if b.id == a.id then a else b) }

/-- The per-row conflict test in the loops of CreateAppointment and
UpdateAppointment: the existing row is not cancelled and either the
half-open intervals intersect (new.start < existing.end and
new.end > existing.start) or the two start times are equal. -/
def conflictsWith (appt existing : Appointment) : Bool :=
  existing.status != AppointmentStatus.cancelled &&
    ((decide (appt.scheduledStart < existing.scheduledEnd) &&
        decide (existing.scheduledStart < appt.scheduledEnd)) ||
      appt.scheduledStart == existing.scheduledStart)

/-- appointmentService.CreateAppointment: validate doctor and patient exist,
reject a start in the past and an end before the start, fetch the rows of the
doctor whose scheduled_start lies in [new.start, new.end] (limit 100, offset 0),
return a conflict error if any fetched row conflicts, otherwise store the
appointment with status forced to pending. -/
def CreateAppointment (now : Int) (db : DB) (appt : Appointment) : Except SvcError DB :=
  if appt.doctorID ∉ db.doctors then .error .doctorNotFound
  else if appt.patientID ∉ db.patients then .error .patientNotFound
  else if appt.scheduledStart < now then .error .pastStart
  else if appt.scheduledEnd < appt.scheduledStart then .error .endBeforeStart
  else if (FindByDateRange db.appointments appt.doctorID appt.scheduledStart
      appt.scheduledEnd 100 0).any (conflictsWith appt) then .error .conflict
  else .ok (repoCreate db { appt with status := .pending })

/-- appointmentService.UpdateAppointment: load the stored row, refuse if it is
completed or cancelled, and when the scheduled times change re-validate them
and scan the rows of the doctor in the new range for conflicts, skipping the
row whose id equals the id of the updated appointment; finally Save the
appointment exactly as the caller passed it. -/
def UpdateAppointment (now : Int) (db : DB) (appt : Appointment) : Except SvcError DB :=
  match FindByID db.appointments appt.id with
  | none => .error .apptNotFound
  | some existing =>
    if existing.status = .completed ∨ existing.status = .cancelled then
      .error .terminalUpdate
    else if appt.scheduledStart ≠ existing.scheduledStart ∨
        appt.scheduledEnd ≠ existing.scheduledEnd then
      if appt.scheduledStart < now then .error .pastStart
      else if appt.scheduledEnd < appt.scheduledStart then .error .endBeforeStart
      else if (FindByDateRange db.appointments appt.doctorID appt.scheduledStart
          appt.scheduledEnd 100 0).any
            (fun ex => ex.id != appt.id && conflictsWith appt ex) then .error .conflict
      else .ok (repoUpdate db appt)
    else .ok (repoUpdate db appt)

/-- appointmentService.CancelAppointment: load the row, refuse if it is already
completed or cancelled, refuse if the start is less than one hour away, else
Save it with status cancelled. -/
def CancelAppointment (now : Int) (db : DB) (id : Nat) : Except SvcError DB :=
  match FindByID db.appointments id with
  | none => .error .apptNotFound
  | some appt =>
    if appt.status = .completed ∨ appt.status = .cancelled then
      .error .alreadyFinished
    else if appt.scheduledStart - now < hourDur then .error .tooLateToCancel
    else .ok (repoUpdate db { appt with status := .cancelled })

/-- appointmentService.CompleteAppointment (the variant wired to the handler):
load the row, refuse unless its status is confirmed, else Save it with status
completed and the given notes.  It never consults the clock. -/
def CompleteAppointment (db : DB) (id : Nat) (notes : String) : Except SvcError DB :=
  match FindByID db.appointments id with
  | none => .error .apptNotFound
  | some appt =>
    if appt.status ≠ .confirmed then .error .notConfirmed
    else .ok (repoUpdate db { appt with status := .completed, notes := notes })

/-- Half-open interval overlap of two appointment windows, from the glossary
of the spec: the windows share an instant. -/
def overlapping (a b : Appointment) : Bool :=
  decide (a.scheduledStart < b.scheduledEnd) && decide (b.scheduledStart < a.scheduledEnd)

/-- The invariant stated by the spec: no two distinct non-cancelled
appointments of the same doctor have overlapping windows. -/
def noDoctorOverlap (appts : List Appointment) : Prop :=
  ∀ a ∈ appts, ∀ b ∈ appts, a.id ≠ b.id → a.doctorID = b.doctorID →
    a.status ≠ AppointmentStatus.cancelled → b.status ≠ AppointmentStatus.cancelled →
    overlapping a b = false

instance (appts : List Appointment) : Decidable (noDoctorOverlap appts) := by
  unfold noDoctorOverlap
  infer_instance

/-- When at most limit rows match the filter, the query with offset 0 returns
exactly the matching rows (up to order). -/
lemma mem_FindByDateRange_iff (appts : List Appointment) (docID : Nat) (s e : Int)
    (limit : Nat) (h : (appts.filter (inDateRange docID s e)).length ≤ limit)
    (x : Appointment) :
    x ∈ FindByDateRange appts docID s e limit 0 ↔ x ∈ appts.filter (inDateRange docID s e) := by
  unfold FindByDateRange
  rw [List.drop_zero, List.take_of_length_le]
  · exact (List.perm_insertionSort _ _).mem_iff
  · rw [(List.perm_insertionSort _ _).length_eq]
    exact h

/-- Every row the date-range query returns is a stored row. -/
lemma FindByDateRange_subset (appts : List Appointment) (docID : Nat) (s e : Int)
    (limit offset : Nat) (x : Appointment)
    (hx : x ∈ FindByDateRange appts docID s e limit offset) : x ∈ appts := by
  unfold FindByDateRange at hx
  have h1 : x ∈ _ := List.take_subset _ _ hx
  have h2 : x ∈ _ := List.drop_subset _ _ h1
  exact List.mem_of_mem_filter ((List.perm_insertionSort _ _).mem_iff.mp h2)

/-- The per-row conflict test, unfolded to a proposition. -/
lemma conflictsWith_iff (a ex : Appointment) :
    conflictsWith a ex = true ↔
      ex.status ≠ AppointmentStatus.cancelled ∧
        ((a.scheduledStart < ex.scheduledEnd ∧ ex.scheduledStart < a.scheduledEnd) ∨
          a.scheduledStart = ex.scheduledStart) := by
  simp [conflictsWith]

/-- The row filter of the date-range query, unfolded to a proposition. -/
lemma inDateRange_iff (docID : Nat) (s e : Int) (a : Appointment) :
    inDateRange docID s e a = true ↔
      a.doctorID = docID ∧ s ≤ a.scheduledStart ∧ a.scheduledStart ≤ e := by
  simp [inDateRange, and_assoc]

/-- UpdateAppointment refuses a stored row that is completed or cancelled. -/
lemma update_terminal_error (now : Int) (db : DB) (appt ex : Appointment)
    (hfind : FindByID db.appointments appt.id = some ex)
    (hterm : ex.status = AppointmentStatus.completed ∨ ex.status = AppointmentStatus.cancelled) :
    UpdateAppointment now db appt = .error .terminalUpdate := by
  unfold UpdateAppointment
  simp only [hfind]
  rw [if_pos hterm]

/-- CancelAppointment refuses a stored row that is completed or cancelled. -/
lemma cancel_terminal_error (now : Int) (db : DB) (id : Nat) (a : Appointment)
    (hfind : FindByID db.appointments id = some a)
    (hterm : a.status = AppointmentStatus.completed ∨ a.status = AppointmentStatus.cancelled) :
    CancelAppointment now db id = .error .alreadyFinished := by
  unfold CancelAppointment
  simp only [hfind]
  rw [if_pos hterm]

/-- CompleteAppointment refuses a stored row whose status is not confirmed. -/
lemma complete_not_confirmed_error (db : DB) (id : Nat) (notes : String) (a : Appointment)
    (hfind : FindByID db.appointments id = some a)
    (hne : a.status ≠ AppointmentStatus.confirmed) :
    CompleteAppointment db id notes = .error .notConfirmed := by
  unfold CompleteAppointment
  simp only [hfind]
  rw [if_pos hne]

/-! Concrete states used by the counterexample and code-bug theorems. -/

/-- A stored pending appointment of doctor 1 over the window [1000, 2000). -/
def c1First : Appointment :=
  ⟨1, 1, 1, 1000, 2000, AppointmentStatus.pending, "", ""⟩

/-- A second request for doctor 1 over the window [1500, 2500), overlapping
c1First. -/
def c1Second : Appointment :=
  ⟨2, 1, 1, 1500, 2500, AppointmentStatus.pending, "", ""⟩

/-- The empty database with doctor 1 and patient 1 registered. -/
def c1DB0 : DB := ⟨[1], [1], []⟩

/-- The database after storing c1First. -/
def c1DB1 : DB := ⟨[1], [1], [c1First]⟩

/-- The database after storing c1First and c1Second. -/
def c1DB2 : DB := ⟨[1], [1], [c1First, c1Second]⟩

/-- C1: the claimed invariant — no two non-cancelled appointments of the same
doctor with overlapping half-open windows is preserved by every sequence of
CreateAppointment and UpdateAppointment calls — fails on the code.  Starting
from a database holding only doctor 1 and patient 1, creating [1000, 2000)
and then [1500, 2500) at current time 0 both succeed, because FindByDateRange
only returns rows whose scheduled_start lies inside the queried window, so
the first appointment (start 1000 < 1500) is never fetched when the second is
checked; the resulting state violates the invariant. -/
theorem C1_overlap_reachable :
    CreateAppointment 0 c1DB0 c1First = Except.ok c1DB1 ∧
    CreateAppointment 0 c1DB1 c1Second = Except.ok c1DB2 ∧
    ¬ noDoctorOverlap c1DB2.appointments :=
  ⟨rfl, rfl, by decide⟩

/-- A stored pending appointment of doctor 1 over [100, 300). -/
def c2Existing : Appointment :=
  ⟨1, 1, 1, 100, 300, AppointmentStatus.pending, "", ""⟩

/-- A proposed appointment for doctor 1 over [200, 400): the stored row starts
before this window and ends inside it. -/
def c2Proposed : Appointment :=
  ⟨2, 1, 1, 200, 400, AppointmentStatus.pending, "", ""⟩

/-- The database holding c2Existing. -/
def c2DB : DB := ⟨[1], [1], [c2Existing]⟩

/-- The database after c2Proposed is stored next to c2Existing. -/
def c2DB' : DB := ⟨[1], [1], [c2Existing, c2Proposed]⟩

/-- C2, counterexample: the stored non-cancelled row [100, 300) intersects the
proposed window [200, 400) under half-open semantics (100 < 400 and 200 < 300)
and starts before it, yet CreateAppointment at current time 0 returns success
instead of the conflict error the claim requires: the row starts before the
proposed window, so the start-filtered date-range query never returns it. -/
theorem C2_missed_conflict :
    c2Existing.status ≠ AppointmentStatus.cancelled ∧
    c2Existing.scheduledStart < c2Proposed.scheduledEnd ∧
    c2Proposed.scheduledStart < c2Existing.scheduledEnd ∧
    c2Existing.scheduledStart < c2Proposed.scheduledStart ∧
    c2Existing.scheduledEnd ≤ c2Proposed.scheduledEnd ∧
    CreateAppointment 0 c2DB c2Proposed = Except.ok c2DB' :=
  ⟨by decide, by decide, by decide, by decide, by decide, rfl⟩

/-- A stored confirmed appointment of doctor 1 over [5000, 6000). -/
def c3Appt : Appointment :=
  ⟨1, 1, 1, 5000, 6000, AppointmentStatus.confirmed, "", ""⟩

/-- The database holding c3Appt. -/
def c3DB : DB := ⟨[1], [1], [c3Appt]⟩

/-- The database after c3Appt is completed with notes. -/
def c3DB' : DB := ⟨[1], [1], [⟨1, 1, 1, 5000, 6000, AppointmentStatus.completed, "done", ""⟩]⟩

/-- C3: the claim — CompleteAppointment fails on every appointment whose
scheduled start is still in the future — fails on the code.  At current time
0 the confirmed appointment starting at 5000 is strictly in the future, yet
CompleteAppointment succeeds and marks it completed: the service method wired
to the handler checks only that the status is confirmed and never consults
the clock (the time guard exists only in a second, unwired variant of the
service in the repository). -/
theorem C3_complete_future_succeeds :
    (0 : Int) < c3Appt.scheduledStart ∧
    CompleteAppointment c3DB 1 "done" = Except.ok c3DB' :=
  ⟨by decide, rfl⟩

/-- A stored pending appointment of doctor 1 over [5000, 6000). -/
def c4Pending : Appointment :=
  ⟨1, 1, 1, 5000, 6000, AppointmentStatus.pending, "", ""⟩

/-- The same appointment with the status field set to completed by the caller. -/
def c4Completed : Appointment :=
  ⟨1, 1, 1, 5000, 6000, AppointmentStatus.completed, "", ""⟩

/-- The database holding c4Pending. -/
def c4DB : DB := ⟨[1], [1], [c4Pending]⟩

/-- The database after the update stores c4Completed. -/
def c4DB' : DB := ⟨[1], [1], [c4Completed]⟩

/-- C4, counterexample: UpdateAppointment performs no lifecycle-edge check on
the new status; updating the stored pending appointment with the same times
but status completed succeeds, moving the appointment from pending directly
to completed and skipping the confirmed state the claimed lifecycle requires. -/
theorem C4_pending_to_completed :
    c4Pending.status = AppointmentStatus.pending ∧
    UpdateAppointment 0 c4DB c4Completed = Except.ok c4DB' ∧
    c4Completed.status = AppointmentStatus.completed :=
  ⟨by decide, rfl, by decide⟩

/-- A zero-length request for doctor 1: start and end both 100. -/
def c9Appt : Appointment :=
  ⟨1, 1, 1, 100, 100, AppointmentStatus.pending, "", ""⟩

/-- The empty database with doctor 1 and patient 1 registered. -/
def c9DB : DB := ⟨[1], [1], []⟩

/-- The database after the zero-length appointment is stored. -/
def c9DB' : DB := ⟨[1], [1], [c9Appt]⟩

/-- C9: CreateAppointment accepts a zero-length window, because the end-time
validation only rejects an end strictly before the start.  At current time 0,
a request with start = end = 100 on a conflict-free doctor succeeds. -/
theorem C9_zero_length_accepted :
    c9Appt.scheduledEnd = c9Appt.scheduledStart ∧
    (0 : Int) < c9Appt.scheduledStart ∧
    CreateAppointment 0 c9DB c9Appt = Except.ok c9DB' :=
  ⟨rfl, by decide, rfl⟩

/-- Whenever CreateAppointment succeeds, the new state is the old one with the
request appended, its status forced to pending. -/
lemma create_appends_pending (now : Int) (db : DB) (appt : Appointment) (db' : DB)
    (h : CreateAppointment now db appt = Except.ok db') :
    db'.appointments = db.appointments ++ [{ appt with status := AppointmentStatus.pending }] := by
  unfold CreateAppointment at h
  split_ifs at h
  all_goals first
    | exact Except.noConfusion h
    | (have heq := Except.ok.inj h
       subst heq
       rfl)

/-- C2, amended: CreateAppointment returns the conflict error if and only if
some stored non-cancelled appointment of the doctor whose ScheduledStart lies
inside [new.start, new.end] intersects the proposal under half-open semantics
or starts exactly at the proposed start.  Rows starting before the proposed
window are never examined, because FindByDateRange filters on scheduled_start
only; the hypothesis that at most 100 rows match reflects the LIMIT 100 the
service passes.  The doctor and patient must exist and the proposal must pass
the time validations, otherwise an earlier error is returned. -/
theorem C2_conflict_characterization (now : Int) (db : DB) (appt : Appointment)
    (hdoc : appt.doctorID ∈ db.doctors) (hpat : appt.patientID ∈ db.patients)
    (hpast : ¬ appt.scheduledStart < now)
    (hord : ¬ appt.scheduledEnd < appt.scheduledStart)
    (hcount : (db.appointments.filter
      (inDateRange appt.doctorID appt.scheduledStart appt.scheduledEnd)).length ≤ 100) :
    CreateAppointment now db appt = Except.error SvcError.conflict ↔
      ∃ ex ∈ db.appointments,
        ex.doctorID = appt.doctorID ∧
        appt.scheduledStart ≤ ex.scheduledStart ∧
        ex.scheduledStart ≤ appt.scheduledEnd ∧
        ex.status ≠ AppointmentStatus.cancelled ∧
        ((appt.scheduledStart < ex.scheduledEnd ∧ ex.scheduledStart < appt.scheduledEnd) ∨
          appt.scheduledStart = ex.scheduledStart) := by
  unfold CreateAppointment
  rw [if_neg (not_not_intro hdoc), if_neg (not_not_intro hpat), if_neg hpast, if_neg hord]
  constructor
  · intro h
    by_cases hany : (FindByDateRange db.appointments appt.doctorID appt.scheduledStart
        appt.scheduledEnd 100 0).any (conflictsWith appt) = true
    · obtain ⟨x, hxmem, hxp⟩ := List.any_eq_true.mp hany
      have hxf := (mem_FindByDateRange_iff _ _ _ _ _ hcount x).mp hxmem
      obtain ⟨hxdb, hxr⟩ := List.mem_filter.mp hxf
      obtain ⟨hdoc2, hge, hle⟩ := (inDateRange_iff _ _ _ x).mp hxr
      obtain ⟨hstat, hcond⟩ := (conflictsWith_iff appt x).mp hxp
      exact ⟨x, hxdb, hdoc2, hge, hle, hstat, hcond⟩
    · rw [if_neg hany] at h
      exact Except.noConfusion h
  · rintro ⟨ex, hmem, hdoc2, hge, hle, hstat, hcond⟩
    have hany : (FindByDateRange db.appointments appt.doctorID appt.scheduledStart
        appt.scheduledEnd 100 0).any (conflictsWith appt) = true := by
      rw [List.any_eq_true]
      exact ⟨ex, (mem_FindByDateRange_iff _ _ _ _ _ hcount ex).mpr
        (List.mem_filter.mpr ⟨hmem, (inDateRange_iff _ _ _ ex).mpr ⟨hdoc2, hge, hle⟩⟩),
        (conflictsWith_iff appt ex).mpr ⟨hstat, hcond⟩⟩
    rw [if_pos hany]

/-- A stored pending appointment of doctor 1 over [100, 200). -/
def c2wExisting : Appointment :=
  ⟨1, 1, 1, 100, 200, AppointmentStatus.pending, "", ""⟩

/-- A proposal for doctor 1 starting exactly at 100 with a shorter window. -/
def c2wProposed : Appointment :=
  ⟨2, 1, 1, 100, 150, AppointmentStatus.pending, "", ""⟩

/-- The database holding c2wExisting. -/
def c2wDB : DB := ⟨[1], [1], [c2wExisting]⟩

/-- Witness for the amended C2 at a concrete input: the equal-start proposal
is reported as a conflict. -/
theorem C2_conflict_characterization_witness :
    CreateAppointment 0 c2wDB c2wProposed = Except.error SvcError.conflict :=
  (C2_conflict_characterization 0 c2wDB c2wProposed (by decide) (by decide) (by decide)
      (by decide) (by decide)).mpr
    ⟨c2wExisting, by decide, by decide, by decide, by decide, by decide, Or.inr (by decide)⟩

/-- C4, amended: an appointment never leaves the completed or cancelled state —
UpdateAppointment, CancelAppointment and CompleteAppointment each fail with an
error on a stored appointment whose status is completed or cancelled, and
CreateAppointment only appends a fresh pending row without touching stored
rows.  (UpdateAppointment performs no further lifecycle validation, so pending
can move directly to completed, as the counterexample shows.) -/
theorem C4_terminal_states_sticky (now : Int) (db : DB) (appt : Appointment) (id : Nat)
    (notes : String) (exU a : Appointment)
    (hfindU : FindByID db.appointments appt.id = some exU)
    (htermU : exU.status = AppointmentStatus.completed ∨ exU.status = AppointmentStatus.cancelled)
    (hfind : FindByID db.appointments id = some a)
    (hterm : a.status = AppointmentStatus.completed ∨ a.status = AppointmentStatus.cancelled) :
    UpdateAppointment now db appt = Except.error SvcError.terminalUpdate ∧
    CancelAppointment now db id = Except.error SvcError.alreadyFinished ∧
    CompleteAppointment db id notes = Except.error SvcError.notConfirmed ∧
    ∀ appt2 db', CreateAppointment now db appt2 = Except.ok db' →
      db'.appointments = db.appointments ++ [{ appt2 with status := AppointmentStatus.pending }] := by
  have hne : a.status ≠ AppointmentStatus.confirmed := by
    rcases hterm with h | h <;> rw [h] <;> decide
  exact ⟨update_terminal_error now db appt exU hfindU htermU,
    cancel_terminal_error now db id a hfind hterm,
    complete_not_confirmed_error db id notes a hfind hne,
    fun appt2 db' h => create_appends_pending now db appt2 db' h⟩

/-- A stored completed appointment of doctor 2 over [700, 800). -/
def c4wRec : Appointment :=
  ⟨1, 2, 2, 700, 800, AppointmentStatus.completed, "", ""⟩

/-- The database holding c4wRec. -/
def c4wDB : DB := ⟨[2], [2], [c4wRec]⟩

/-- Witness for the amended C4 at a concrete input: all three mutating
operations fail on a completed appointment. -/
theorem C4_terminal_states_sticky_witness :
    UpdateAppointment 0 c4wDB c4wRec = Except.error SvcError.terminalUpdate ∧
    CancelAppointment 0 c4wDB 1 = Except.error SvcError.alreadyFinished ∧
    CompleteAppointment c4wDB 1 "n" = Except.error SvcError.notConfirmed :=
  ⟨(C4_terminal_states_sticky 0 c4wDB c4wRec 1 "n" c4wRec c4wRec rfl (Or.inl rfl) rfl
      (Or.inl rfl)).1,
   (C4_terminal_states_sticky 0 c4wDB c4wRec 1 "n" c4wRec c4wRec rfl (Or.inl rfl) rfl
      (Or.inl rfl)).2.1,
   (C4_terminal_states_sticky 0 c4wDB c4wRec 1 "n" c4wRec c4wRec rfl (Or.inl rfl) rfl
      (Or.inl rfl)).2.2.1⟩

/-- C5: cancelling an appointment whose scheduled start is less than one hour
after the current time fails — either with the already-finished error (whose
guard runs first) or with the too-late error.  An error return leaves the
stored state untouched, since the repository writer is never called. -/
theorem C5_cancel_too_late (now : Int) (db : DB) (id : Nat) (a : Appointment)
    (hfind : FindByID db.appointments id = some a)
    (hsoon : a.scheduledStart < now + hourDur) :
    CancelAppointment now db id = Except.error SvcError.alreadyFinished ∨
    CancelAppointment now db id = Except.error SvcError.tooLateToCancel := by
  by_cases hterm : a.status = AppointmentStatus.completed ∨ a.status = AppointmentStatus.cancelled
  · exact Or.inl (cancel_terminal_error now db id a hfind hterm)
  · refine Or.inr ?_
    have hlt : a.scheduledStart - now < hourDur := by
      unfold hourDur at hsoon ⊢
      omega
    unfold CancelAppointment
    simp only [hfind]
    rw [if_neg hterm, if_pos hlt]

/-- A stored pending appointment of doctor 3 starting at 100. -/
def c5wRec : Appointment :=
  ⟨1, 3, 3, 100, 200, AppointmentStatus.pending, "", ""⟩

/-- The database holding c5wRec. -/
def c5wDB : DB := ⟨[3], [3], [c5wRec]⟩

/-- Witness for C5 at a concrete input: start 100 is less than one hour after
current time 0, so cancellation fails. -/
theorem C5_cancel_too_late_witness :
    CancelAppointment 0 c5wDB 1 = Except.error SvcError.alreadyFinished ∨
    CancelAppointment 0 c5wDB 1 = Except.error SvcError.tooLateToCancel :=
  C5_cancel_too_late 0 c5wDB 1 c5wRec rfl (by decide)

/-- C6: a create request whose scheduled start is strictly before the current
time always fails — with the past-start error when doctor and patient exist,
or with one of the not-found errors otherwise; in every case no appointment is
stored, since the repository writer is never reached. -/
theorem C6_create_past_fails (now : Int) (db : DB) (appt : Appointment)
    (hpast : appt.scheduledStart < now) :
    CreateAppointment now db appt = Except.error SvcError.doctorNotFound ∨
    CreateAppointment now db appt = Except.error SvcError.patientNotFound ∨
    CreateAppointment now db appt = Except.error SvcError.pastStart := by
  unfold CreateAppointment
  by_cases h1 : appt.doctorID ∉ db.doctors
  · rw [if_pos h1]
    exact Or.inl rfl
  · rw [if_neg h1]
    by_cases h2 : appt.patientID ∉ db.patients
    · rw [if_pos h2]
      exact Or.inr (Or.inl rfl)
    · rw [if_neg h2, if_pos hpast]
      exact Or.inr (Or.inr rfl)

/-- A request for doctor 4 starting at 5, before current time 10. -/
def c6wAppt : Appointment :=
  ⟨1, 4, 4, 5, 50, AppointmentStatus.pending, "", ""⟩

/-- The empty database with doctor 4 and patient 4 registered. -/
def c6wDB : DB := ⟨[4], [4], []⟩

/-- Witness for C6 at a concrete input: a start in the past is rejected. -/
theorem C6_create_past_fails_witness :
    CreateAppointment 10 c6wDB c6wAppt = Except.error SvcError.doctorNotFound ∨
    CreateAppointment 10 c6wDB c6wAppt = Except.error SvcError.patientNotFound ∨
    CreateAppointment 10 c6wDB c6wAppt = Except.error SvcError.pastStart :=
  C6_create_past_fails 10 c6wDB c6wAppt (by decide)

/-- C7: on a stored appointment whose status is completed or cancelled, each
of UpdateAppointment (for any update request addressing that id),
CancelAppointment and CompleteAppointment fails with an error; an error return
leaves the stored state untouched, since the repository writer is never
called. -/
theorem C7_terminal_ops_fail (now : Int) (db : DB) (appt : Appointment) (id : Nat)
    (notes : String) (a : Appointment)
    (hfind : FindByID db.appointments id = some a)
    (hterm : a.status = AppointmentStatus.completed ∨ a.status = AppointmentStatus.cancelled)
    (hid : appt.id = id) :
    UpdateAppointment now db appt = Except.error SvcError.terminalUpdate ∧
    CancelAppointment now db id = Except.error SvcError.alreadyFinished ∧
    CompleteAppointment db id notes = Except.error SvcError.notConfirmed := by
  have hne : a.status ≠ AppointmentStatus.confirmed := by
    rcases hterm with h | h <;> rw [h] <;> decide
  refine ⟨?_, cancel_terminal_error now db id a hfind hterm,
    complete_not_confirmed_error db id notes a hfind hne⟩
  refine update_terminal_error now db appt a ?_ hterm
  rw [hid]
  exact hfind

/-- A stored cancelled appointment of doctor 5 over [900, 950). -/
def c7wRec : Appointment :=
  ⟨1, 5, 5, 900, 950, AppointmentStatus.cancelled, "", ""⟩

/-- The database holding c7wRec. -/
def c7wDB : DB := ⟨[5], [5], [c7wRec]⟩

/-- Witness for C7 at a concrete input: all three operations fail on a
cancelled appointment. -/
theorem C7_terminal_ops_fail_witness :
    UpdateAppointment 0 c7wDB c7wRec = Except.error SvcError.terminalUpdate ∧
    CancelAppointment 0 c7wDB 1 = Except.error SvcError.alreadyFinished ∧
    CompleteAppointment c7wDB 1 "x" = Except.error SvcError.notConfirmed :=
  C7_terminal_ops_fail 0 c7wDB c7wRec 1 "x" c7wRec rfl (Or.inr rfl) rfl

/-- C8: every appointment CreateAppointment stores is stored with status
pending, whatever status the caller put in the request: the successful result
state is exactly the old state with the request appended and its status field
overwritten with pending. -/
theorem C8_create_stores_pending (now : Int) (db : DB) (appt : Appointment) (db' : DB)
    (h : CreateAppointment now db appt = Except.ok db') :
    db'.appointments = db.appointments ++ [{ appt with status := AppointmentStatus.pending }] :=
  create_appends_pending now db appt db' h

/-- A request for doctor 6 carrying the caller-chosen status confirmed. -/
def c8wAppt : Appointment :=
  ⟨1, 6, 6, 400, 500, AppointmentStatus.confirmed, "", ""⟩

/-- The empty database with doctor 6 and patient 6 registered. -/
def c8wDB : DB := ⟨[6], [6], []⟩

/-- Witness for C8 at a concrete input: the stored row has status pending even
though the request said confirmed. -/
theorem C8_create_stores_pending_witness :
    (DB.mk [6] [6] [⟨1, 6, 6, 400, 500, AppointmentStatus.pending, "", ""⟩]).appointments =
      c8wDB.appointments ++ [{ c8wAppt with status := AppointmentStatus.pending }] :=
  C8_create_stores_pending 0 c8wDB c8wAppt
    (DB.mk [6] [6] [⟨1, 6, 6, 400, 500, AppointmentStatus.pending, "", ""⟩]) rfl

/-- C10: the conflict scan of UpdateAppointment skips the stored row whose id
equals the id of the updated appointment.  First part: an update that keeps
both scheduled times equal to the stored ones never returns the conflict
error (the scan is not even run).  Second part: even when the times change,
if every stored row that conflicts with the new window is the row being
updated itself, no conflict error is returned. -/
theorem C10_update_self_no_conflict (now : Int) (db : DB) (appt ex : Appointment)
    (hfind : FindByID db.appointments appt.id = some ex) :
    (ex.scheduledStart = appt.scheduledStart → ex.scheduledEnd = appt.scheduledEnd →
      UpdateAppointment now db appt ≠ Except.error SvcError.conflict) ∧
    ((∀ b ∈ db.appointments, conflictsWith appt b = true → b.id = appt.id) →
      UpdateAppointment now db appt ≠ Except.error SvcError.conflict) := by
  constructor
  · intro hs he hcon
    unfold UpdateAppointment at hcon
    simp only [hfind] at hcon
    by_cases hterm : ex.status = AppointmentStatus.completed ∨
        ex.status = AppointmentStatus.cancelled
    · rw [if_pos hterm] at hcon
      exact SvcError.noConfusion (Except.error.inj hcon)
    · rw [if_neg hterm] at hcon
      have hts : ¬(appt.scheduledStart ≠ ex.scheduledStart ∨
          appt.scheduledEnd ≠ ex.scheduledEnd) := by
        rintro (h | h)
        · exact h hs.symm
        · exact h he.symm
      rw [if_neg hts] at hcon
      exact Except.noConfusion hcon
  · intro hall hcon
    unfold UpdateAppointment at hcon
    simp only [hfind] at hcon
    by_cases hterm : ex.status = AppointmentStatus.completed ∨
        ex.status = AppointmentStatus.cancelled
    · rw [if_pos hterm] at hcon
      exact SvcError.noConfusion (Except.error.inj hcon)
    · rw [if_neg hterm] at hcon
      by_cases htime : appt.scheduledStart ≠ ex.scheduledStart ∨
          appt.scheduledEnd ≠ ex.scheduledEnd
      · rw [if_pos htime] at hcon
        by_cases hp : appt.scheduledStart < now
        · rw [if_pos hp] at hcon
          exact SvcError.noConfusion (Except.error.inj hcon)
        · rw [if_neg hp] at hcon
          by_cases hq : appt.scheduledEnd < appt.scheduledStart
          · rw [if_pos hq] at hcon
            exact SvcError.noConfusion (Except.error.inj hcon)
          · rw [if_neg hq] at hcon
            by_cases hany : (FindByDateRange db.appointments appt.doctorID
                appt.scheduledStart appt.scheduledEnd 100 0).any
                  (fun ex2 => ex2.id != appt.id && conflictsWith appt ex2) = true
            · obtain ⟨x, hxmem, hxp⟩ := List.any_eq_true.mp hany
              simp only [Bool.and_eq_true] at hxp
              obtain ⟨hne, hcw⟩ := hxp
              exact absurd (hall x (FindByDateRange_subset _ _ _ _ _ _ x hxmem) hcw)
                (bne_iff_ne.mp hne)
            · rw [if_neg hany] at hcon
              exact Except.noConfusion hcon
      · rw [if_neg htime] at hcon
        exact Except.noConfusion hcon

/-- A stored pending appointment of doctor 7 over [100, 200). -/
def c10wRec : Appointment :=
  ⟨1, 7, 7, 100, 200, AppointmentStatus.pending, "", ""⟩

/-- An update request for the same row keeping both times, changing only the
reason. -/
def c10wAppt : Appointment :=
  ⟨1, 7, 7, 100, 200, AppointmentStatus.pending, "", "new reason"⟩

/-- The database holding c10wRec. -/
def c10wDB : DB := ⟨[7], [7], [c10wRec]⟩

/-- Witness for C10 at a concrete input: an update keeping the stored times is
never reported as a conflict. -/
theorem C10_update_self_no_conflict_witness :
    UpdateAppointment 0 c10wDB c10wAppt ≠ Except.error SvcError.conflict :=
  (C10_update_self_no_conflict 0 c10wDB c10wAppt c10wRec rfl).1 rfl rfl

end Ehass
